import Mathlib

set_option maxRecDepth 8000

/-!
Verification of the flight-mcp-server repository (src/index.js,
src/errorHandler.js, src/amadeusClient.js) against its specification.

Modelling conventions for the shallow embedding:
* JavaScript strings are Lean `String`, with `Option String` where a value
  may be `undefined`/`null` (`none`) — the empty string is kept separate
  because JS distinguishes it (both are falsy).
* Thrown exceptions become `Except` error values; the two exception classes
  of errorHandler.js (`ValidationError`, `FlightAPIError`) and the generic
  JS `Error` form the inductive `JSError`.
* `Math.random()` returns a double of the form k / 2^53 with k < 2^53
  (the V8 granularity); we model a draw as its numerator `k : ℕ`.  For
  naturals m, n the JS expression `Math.floor(random * m + n)` then equals
  `k * m / 2^53 + n` in exact arithmetic, and `random > 0.6` is
  `5 * k > 3 * 2^53` (the decimal literal read exactly; the one-ulp
  difference between the double nearest 0.6 and 3/5 does not affect any
  property stated here).
* `new Date("YYYY-MM-DD")` parses an ISO date-only string at UTC midnight
  and is invalid when the components are not a real calendar date; the
  process timezone is modelled as UTC, so the local-midnight comparison of
  validateDate is calendar-date comparison.  The current date is passed as
  an explicit `today : YMD` parameter.
* Number-to-string coercion (JS template literals) is `natToString`,
  a structural decimal renderer.
-/

/-- Decimal digits of n, least significant first, by fuel recursion
(kernel-reducible, unlike well-founded definitions). -/
def natToDigitsRev (fuel n : ℕ) : List ℕ :=
  match fuel with
  | 0 => []
  | f + 1 => if n = 0 then [] else (n % 10) :: natToDigitsRev f (n / 10)

/-- JS number-to-string for a natural number (template-literal coercion). -/
def natToString (n : ℕ) : String :=
  if n = 0 then "0" else String.mk (((natToDigitsRev n n).reverse).map Nat.digitChar)

/-- JS `s.padStart(2, "0")` for the nonempty strings it is applied to. -/
def pad2 (s : String) : String :=
  if s.length < 2 then "0" ++ s else s

/-- Concatenation of a list of strings (JS `+=` accumulation). -/
def concatAll (L : List String) : String := L.foldr (fun a b => a ++ b) ""

/-- ASCII uppercase letter, as matched by the JS regex class [A-Z]. -/
def isUpperLetter (c : Char) : Bool := 'A' ≤ c && c ≤ 'Z'

/-- ASCII lowercase letter, as matched by the JS regex class [a-z]. -/
def isLowerLetter (c : Char) : Bool := 'a' ≤ c && c ≤ 'z'

/-- ASCII letter, as matched by the JS regex class [A-Za-z]. -/
def isAsciiLetter (c : Char) : Bool := isUpperLetter c || isLowerLetter c

/-- ASCII digit, as matched by the JS regex class \d. -/
def isDigitChar (c : Char) : Bool := '0' ≤ c && c ≤ '9'

/-- JS `String.prototype.toUpperCase` restricted to ASCII (all inputs it is
applied to in this program have passed an [A-Za-z] shaped regex). -/
def jsToUpper (s : String) : String :=
  String.mk (s.data.map Char.toUpper)

/-- Numeric value of an ASCII digit character. -/
def digitVal (c : Char) : ℕ := c.toNat - '0'.toNat

/-- A calendar date as parsed from a YYYY-MM-DD string. -/
structure YMD where
  year : ℕ
  month : ℕ
  day : ℕ
deriving DecidableEq, Repr

/-- Gregorian leap-year rule (used by the JS Date object). -/
def isLeapYear (y : ℕ) : Bool :=
  (y % 4 = 0 && y % 100 ≠ 0) || y % 400 = 0

/-- Days in a month of a given year, per the JS Date object. -/
def daysInMonth (y m : ℕ) : ℕ :=
  if m = 2 then (if isLeapYear y then 29 else 28)
  else if m = 4 || m = 6 || m = 9 || m = 11 then 30
  else 31

/-- A YYYY-MM-DD string denotes a real calendar date exactly when
`new Date(s)` is not an Invalid Date. -/
def YMD.isReal (d : YMD) : Bool :=
  1 ≤ d.month && d.month ≤ 12 && 1 ≤ d.day && d.day ≤ daysInMonth d.year d.month

/-- Strict order on calendar dates; equals timestamp order of the
corresponding UTC midnights. -/
def YMD.lt (a b : YMD) : Bool :=
  a.year < b.year ||
  (a.year = b.year && (a.month < b.month || (a.month = b.month && a.day < b.day)))

/-- Non-strict order on calendar dates. -/
def YMD.le (a b : YMD) : Bool := a.lt b || a = b

/-- Parse of a string against the regex ^\d{4}-\d{2}-\d{2}$ of
validateDate: `some` exactly when the regex matches. -/
def parseYMD (s : String) : Option YMD :=
  match s.data with
  | [y1, y2, y3, y4, h1, m1, m2, h2, d1, d2] =>
    if h1 = '-' && h2 = '-' &&
       isDigitChar y1 && isDigitChar y2 && isDigitChar y3 && isDigitChar y4 &&
       isDigitChar m1 && isDigitChar m2 && isDigitChar d1 && isDigitChar d2 then
      some ⟨digitVal y1 * 1000 + digitVal y2 * 100 + digitVal y3 * 10 + digitVal y4,
            digitVal m1 * 10 + digitVal m2,
            digitVal d1 * 10 + digitVal d2⟩
    else none
  | _ => none

/-- Exception class ValidationError of errorHandler.js: message, offending
field, rejected value (`none` models an undefined/null value). -/
structure ValidationError where
  message : String
  field : String
  value : Option String
deriving DecidableEq, Repr

/-- Exception class FlightAPIError of errorHandler.js: message, machine
readable code, detail map (modelled as an association list of the
string-rendered key/value pairs that feed JSON.stringify). -/
structure FlightAPIErr where
  message : String
  code : String
  details : List (String × String)
deriving DecidableEq, Repr

/-- An arbitrary JS exception as seen by the dispatcher boundary:
a ValidationError, a FlightAPIError, or any other Error (carrying only
its message, which is all formatError reads from it). -/
inductive JSError where
  | validation (v : ValidationError)
  | api (e : FlightAPIErr)
  | other (message : String)
deriving DecidableEq, Repr

instance {ε α : Type} [DecidableEq ε] [DecidableEq α] : DecidableEq (Except ε α)
  | .error a, .error b =>
    if h : a = b then .isTrue (by rw [h]) else .isFalse (fun hc => h (Except.error.inj hc))
  | .error _, .ok _ => .isFalse (fun hc => Except.noConfusion hc)
  | .ok _, .error _ => .isFalse (fun hc => Except.noConfusion hc)
  | .ok a, .ok b =>
    if h : a = b then .isTrue (by rw [h]) else .isFalse (fun hc => h (Except.ok.inj hc))

/-- validateAirportCode of errorHandler.js.  The argument is `none` for an
undefined/null argument; the falsy check `!code` also catches "". -/
def validateAirportCode (code : Option String) : Except ValidationError String :=
  match code with
  | none => .error ⟨"Airport code is required", "airport_code", none⟩
  | some c =>
    if c = "" then .error ⟨"Airport code is required", "airport_code", some c⟩
    else if c.length ≠ 3 then
      .error ⟨"Airport code must be 3 characters long", "airport_code", some c⟩
    else if ¬ (c.data.all isAsciiLetter) then
      .error ⟨"Airport code must contain only letters", "airport_code", some c⟩
    else .ok (jsToUpper c)

/-- validateDate of errorHandler.js; `today` is the current date (the
process timezone is modelled as UTC, see the header comment). -/
def validateDate (dateString : Option String) (fieldName : String) (today : YMD) :
    Except ValidationError String :=
  match dateString with
  | none => .error ⟨fieldName ++ " is required", fieldName, none⟩
  | some s =>
    if s = "" then .error ⟨fieldName ++ " is required", fieldName, some s⟩
    else
      match parseYMD s with
      | none => .error ⟨fieldName ++ " must be in YYYY-MM-DD format", fieldName, some s⟩
      | some d =>
        if ¬ d.isReal then .error ⟨"Invalid " ++ fieldName, fieldName, some s⟩
        else if d.lt today then
          .error ⟨fieldName ++ " cannot be in the past", fieldName, some s⟩
        else .ok s

/-- The shape check of validateFlightNumber: ^[A-Za-z]{2,3}\d{1,4}$. -/
def flightNumberShape (s : String) : Bool :=
  let letters := s.data.takeWhile isAsciiLetter
  let digits := s.data.dropWhile isAsciiLetter
  (letters.length = 2 || letters.length = 3) &&
  (1 ≤ digits.length && digits.length ≤ 4) &&
  digits.all isDigitChar

/-- validateFlightNumber of errorHandler.js. -/
def validateFlightNumber (flightNumber : Option String) : Except ValidationError String :=
  match flightNumber with
  | none => .error ⟨"Flight number is required", "flight_number", none⟩
  | some s =>
    if s = "" then .error ⟨"Flight number is required", "flight_number", some s⟩
    else if ¬ flightNumberShape s then
      .error ⟨"Flight number must be in format: AA123, DL1234, etc.", "flight_number", some s⟩
    else .ok (jsToUpper s)

/-- validatePassengerCount of errorHandler.js.  The argument is `none` for
undefined (check skipped, result defaults to 1 via `count || 1`); a present
argument is modelled as an integer, covering the in-range/out-of-range
split the claims rely on. -/
def validatePassengerCount (count : Option ℤ) : Except ValidationError ℕ :=
  match count with
  | none => .ok 1
  | some c =>
    if c < 1 || 9 < c then
      .error ⟨"Number of adults must be between 1 and 9", "adults", some (toString c)⟩
    else .ok c.toNat

/-- The fixed enumeration of validateTravelClass. -/
def validClasses : List String := ["economy", "premium_economy", "business", "first"]

/-- validateTravelClass of errorHandler.js: only a truthy value outside the
enumeration throws; a falsy value (undefined/null/"") defaults to economy
via `travelClass || "economy"`. -/
def validateTravelClass (travelClass : Option String) : Except ValidationError String :=
  let truthy : Bool := match travelClass with | none => false | some s => s ≠ ""
  if truthy && ¬ (validClasses.contains (travelClass.getD "")) then
    .error ⟨"Travel class must be one of: economy, premium_economy, business, first",
            "travel_class", travelClass⟩
  else .ok (if truthy then travelClass.getD "" else "economy")

/-- The argument record of the search_flights tool (index.js). -/
structure SearchArgs where
  origin : Option String
  destination : Option String
  departure_date : Option String
  return_date : Option String
  adults : Option ℤ
  travel_class : Option String
deriving DecidableEq, Repr

/-- The validated search criteria produced by the validation phase of
searchFlights in index.js. -/
structure Criteria where
  origin : String
  destination : String
  departure_date : String
  return_date : Option String
  adults : ℕ
  travel_class : String
deriving DecidableEq, Repr

/-- Total parse helper for strings already known to match the date regex. -/
def parseYMDD (s : String) : YMD := (parseYMD s).getD ⟨0, 0, 0⟩

/-- The validation phase of searchFlights (index.js lines 192-221), in
source order: per-field validation, then the return-date cross check
(inside `if (args.return_date)`, so a falsy return_date is skipped),
then the origin/destination difference check. -/
def searchFlightsValidate (args : SearchArgs) (today : YMD) :
    Except ValidationError Criteria := do
  let o ← validateAirportCode args.origin
  let d ← validateAirportCode args.destination
  let dep ← validateDate args.departure_date "departure_date" today
  let adults ← validatePassengerCount args.adults
  let tc ← validateTravelClass args.travel_class
  let ret ← match args.return_date with
    | none => pure none
    | some r =>
      if r = "" then pure none
      else do
        let rv ← validateDate (some r) "return_date" today
        if (parseYMDD rv).le (parseYMDD dep) then
          Except.error ⟨"Return date must be after departure date", "return_date", some r⟩
        else pure (some rv)
  if o = d then
    Except.error ⟨"Origin and destination airports must be different",
                  "destination", args.destination⟩
  else pure ⟨o, d, dep, ret, adults, tc⟩

/-- Granularity of Math.random: it returns k / 2^53 for some k < 2^53. -/
def N53 : ℕ := 2 ^ 53

/-- `Math.floor(Math.random() * mul + add)` where the draw is k / 2^53:
exact-arithmetic value (k * mul) / 2^53 + add. -/
def jsFloorMulAdd (k mul add : ℕ) : ℕ := k * mul / N53 + add

/-- The stop-count expression of generateMockFlights:
`Math.random() > 0.6 ? 0 : 1`, with the draw modelled as k / 2^53 and the
decimal literal 0.6 read exactly as 3/5. -/
def mockStops (k : ℕ) : ℕ := if 3 * N53 < 5 * k then 0 else 1

/-- The fixed airline set of generateMockFlights. -/
def mockAirlines : List (String × String) :=
  [("AA", "American Airlines"),
   ("DL", "Delta Air Lines"),
   ("UA", "United Airlines"),
   ("WN", "Southwest Airlines"),
   ("B6", "JetBlue Airways")]

/-- The Math.random() draws consumed for one mock flight, each the
numerator k < 2^53 of the drawn double. -/
structure FlightRand where
  airlineK : ℕ
  numK : ℕ
  priceK : ℕ
  durK : ℕ
  depHK : ℕ
  depMK : ℕ
  arrHK : ℕ
  arrMK : ℕ
  durMinK : ℕ
  stopK : ℕ
deriving Repr

/-- Validity of a draw numerator. -/
def validK (k : ℕ) : Prop := k < N53

/-- All draws of a FlightRand are valid Math.random() outputs. -/
def FlightRand.Valid (r : FlightRand) : Prop :=
  validK r.airlineK ∧ validK r.numK ∧ validK r.priceK ∧ validK r.durK ∧
  validK r.depHK ∧ validK r.depMK ∧ validK r.arrHK ∧ validK r.arrMK ∧
  validK r.durMinK ∧ validK r.stopK

/-- The price record of a flight offer. -/
structure Price where
  amount : ℕ
  currency : String
  per_person : ℕ
deriving DecidableEq, Repr

/-- A flight offer as built by generateMockFlights (index.js lines
284-323); booking_class is optional and segments absent to match the
object shape read back by formatFlightSearchResults. -/
structure Flight where
  airline : String
  flight_number : String
  origin : String
  destination : String
  departure_date : String
  departure_time : String
  arrival_time : String
  duration : String
  price : Price
  stops : ℕ
  travel_class : String
  aircraft : String
  booking_class : Option String
  segments : Option ℕ
deriving DecidableEq, Repr

/-- generateRandomTime of index.js (two Math.random() draws). -/
def generateRandomTime (hk mk : ℕ) : String :=
  pad2 (natToString (jsFloorMulAdd hk 24 0)) ++ ":" ++ pad2 (natToString (jsFloorMulAdd mk 60 0))

/-- One iteration of the loop body of generateMockFlights. -/
def mkMockFlight (origin destination departureDate travelClass : String)
    (adults : ℕ) (r : FlightRand) : Flight :=
  let airline := mockAirlines.getD (jsFloorMulAdd r.airlineK 5 0) ("", "")
  let flightNumber := airline.1 ++ natToString (jsFloorMulAdd r.numK 9000 1000)
  let basePrice := jsFloorMulAdd r.priceK 800 200
  let duration := jsFloorMulAdd r.durK 8 2
  { airline := airline.2
    flight_number := flightNumber
    origin := origin
    destination := destination
    departure_date := departureDate
    departure_time := generateRandomTime r.depHK r.depMK
    arrival_time := generateRandomTime r.arrHK r.arrMK
    duration := natToString duration ++ "h " ++ natToString (jsFloorMulAdd r.durMinK 60 0) ++ "m"
    price := ⟨basePrice * adults, "USD", basePrice⟩
    stops := mockStops r.stopK
    travel_class := travelClass
    aircraft := "Boeing 737-800"
    booking_class := some "V"
    segments := none }

/-- The ascending-price comparator `(a, b) => a.price.amount - b.price.amount`
of the final sort of generateMockFlights. -/
def priceLE (a b : Flight) : Bool := a.price.amount ≤ b.price.amount

/-- generateMockFlights of index.js: five offers from the loop, then
`flights.sort((a, b) => a.price.amount - b.price.amount)`.  The unused
returnDate parameter is kept from the source signature. -/
def generateMockFlights (origin destination departureDate : String)
    (_returnDate : Option String) (adults : ℕ) (travelClass : String)
    (rands : Fin 5 → FlightRand) : List Flight :=
  (((List.finRange 5).map
      (fun i => mkMockFlight origin destination departureDate travelClass adults (rands i)))).mergeSort
    priceLE

/-- A text content block of a tool response. -/
structure TextBlock where
  type : String
  text : String
deriving DecidableEq, Repr

/-- A tool response: a content array of text blocks. -/
structure ToolResponse where
  content : List TextBlock
deriving DecidableEq, Repr

/-- Wrap one text payload the way every tool handler does. -/
def mkTextResponse (t : String) : ToolResponse := ⟨[⟨"text", t⟩]⟩

/-- The per-offer block of formatFlightSearchResults (the forEach body). -/
def formatFlightBlock (index : ℕ) (flight : Flight) : String :=
  natToString (index + 1) ++ ". " ++ flight.airline ++ " (" ++ flight.flight_number ++ ")\\n" ++
  "   Time: " ++ flight.departure_time ++ " → " ++ flight.arrival_time ++
    " (" ++ flight.duration ++ ")\\n" ++
  "   Price: " ++ flight.price.currency ++ " " ++ natToString flight.price.amount ++
    " total (" ++ flight.price.currency ++ " " ++ natToString flight.price.per_person ++
    "/person)\\n" ++
  "   Aircraft: " ++ (if flight.aircraft = "" then "Aircraft info unavailable" else flight.aircraft) ++
    " | " ++ (if flight.stops = 0 then "Direct" else natToString flight.stops ++ " stop(s)") ++ "\\n" ++
  "   Class: " ++ flight.travel_class ++
  (match flight.booking_class with
   | some bc => " (" ++ bc ++ ")"
   | none => "") ++
  (match flight.segments with
   | some n => if 1 < n then " | " ++ natToString n ++ " segments" else ""
   | none => "") ++
  "\\n\\n"

/-- formatFlightSearchResults of index.js (lines 331-363).  The source
writes the literal two-character sequence backslash-n (JS `\\n`) between
lines; the Lean literals below contain the same two characters. -/
def formatFlightSearchResults (flights : List Flight)
    (origin destination departureDate : String) (returnDate : Option String)
    (useRealAPI : Bool) : String :=
  "Flight Search Results\\n" ++
  "Route: " ++ origin ++ " → " ++ destination ++ "\\n" ++
  "Departure Date: " ++ departureDate ++ "\\n" ++
  (match returnDate with
   | some r => "Return Date: " ++ r ++ "\\n"
   | none => "") ++
  (if useRealAPI then "Live data from Amadeus API"
   else "Sample data (configure API for real results)") ++ "\\n\\n" ++
  concatAll (flights.enum.map (fun p => formatFlightBlock p.1 p.2)) ++
  (if useRealAPI then ""
   else "Note: These are sample results. Real Amadeus API integration is available with valid credentials.\\n")

/-- The body of searchFlights after validation (index.js lines 223-282),
parameterised over the flight source: in Live mode the provider client, in
Fallback mode generateMockFlights.  A validation failure means the source
is never consulted (the result does not depend on `search`). -/
def searchFlightsTool (search : Criteria → List Flight) (useRealAPI : Bool)
    (args : SearchArgs) (today : YMD) : Except JSError ToolResponse :=
  match searchFlightsValidate args today with
  | .error ve => .error (.validation ve)
  | .ok c =>
    let flights := search c
    if flights.isEmpty then
      .error (.api ⟨"No flights found for the specified criteria", "FLIGHT_NOT_FOUND",
                    [("origin", c.origin), ("destination", c.destination),
                     ("date", c.departure_date)]⟩)
    else
      .ok (mkTextResponse (formatFlightSearchResults flights c.origin c.destination
            c.departure_date c.return_date useRealAPI))

/-- One output line of getFlightStatus; `renderStatusLine` gives the exact
source text of each, and the source emits the lines joined by the literal
two-character backslash-n sequence. -/
inductive StatusLine where
  | header
  | blank
  | flightLine (fn : String)
  | dateLine (d : String)
  | statusLine (s : String)
  | gate (g : String)
  | scheduled (t : String)
  | estimated (t : String)
  | delayReason
  | actualTime (t : String)
  | cancelledNote
deriving DecidableEq, Repr

/-- Exact source text of a status line (without the trailing escape). -/
def renderStatusLine : StatusLine → String
  | .header => "Flight Status"
  | .blank => ""
  | .flightLine fn => "Flight: " ++ fn
  | .dateLine d => "Date: " ++ d
  | .statusLine s => "Status: " ++ s
  | .gate g => "Gate: " ++ g
  | .scheduled t => "Scheduled Departure: " ++ t
  | .estimated t => "Estimated Departure: " ++ t
  | .delayReason => "Delay Reason: Weather conditions"
  | .actualTime t => "Actual Time: " ++ t
  | .cancelledNote => "Flight has been cancelled. Please contact your airline for rebooking options."

/-- Joining the lines reconstructs the resultText string of getFlightStatus
verbatim: every line of the source ends with the literal backslash-n pair. -/
def renderStatusText (lines : List StatusLine) : String :=
  concatAll (lines.map (fun l => renderStatusLine l ++ "\\n"))

/-- The status enumeration of getFlightStatus. -/
def statuses : List String :=
  ["On Time", "Delayed", "Boarding", "Departed", "Arrived", "Cancelled"]

/-- The gate set of getFlightStatus. -/
def gates : List String := ["A12", "B7", "C14", "D9", "E23"]

/-- The Math.random() draws consumed by getFlightStatus (numerators of the
drawn doubles): status, gate, and the hour/minute pairs of up to three
generateRandomTime calls. -/
structure StatusRand where
  statusK : ℕ
  gateK : ℕ
  schedHK : ℕ
  schedMK : ℕ
  estHK : ℕ
  estMK : ℕ
  actHK : ℕ
  actMK : ℕ
deriving Repr

/-- All draws of a StatusRand are valid Math.random() outputs. -/
def StatusRand.Valid (r : StatusRand) : Prop :=
  validK r.statusK ∧ validK r.gateK ∧ validK r.schedHK ∧ validK r.schedMK ∧
  validK r.estHK ∧ validK r.estMK ∧ validK r.actHK ∧ validK r.actMK

/-- The status selected by getFlightStatus for a draw. -/
def selectedStatus (r : StatusRand) : String :=
  statuses.getD (jsFloorMulAdd r.statusK 6 0) ""

/-- The gate selected by getFlightStatus for a draw. -/
def selectedGate (r : StatusRand) : String :=
  gates.getD (jsFloorMulAdd r.gateK 5 0) ""

/-- The lines of the resultText built by getFlightStatus (index.js lines
462-481), in source order. -/
def getFlightStatusLines (fn d : String) (r : StatusRand) : List StatusLine :=
  let status := selectedStatus r
  [.header, .blank, .flightLine fn, .dateLine d, .statusLine status] ++
  (if status ≠ "Cancelled" then
    [.gate (selectedGate r), .scheduled (generateRandomTime r.schedHK r.schedMK)] ++
    (if status = "Delayed" then
      [.estimated (generateRandomTime r.estHK r.estMK), .delayReason]
     else []) ++
    (if status = "Arrived" || status = "Departed" then
      [.actualTime (generateRandomTime r.actHK r.actMK)]
     else [])
   else [.cancelledNote])

/-- The argument record of get_flight_status. -/
structure StatusArgs where
  flight_number : Option String
  date : Option String
deriving DecidableEq, Repr

/-- getFlightStatus of index.js (lines 451-491). -/
def getFlightStatusTool (args : StatusArgs) (today : YMD) (r : StatusRand) :
    Except JSError ToolResponse :=
  match validateFlightNumber args.flight_number with
  | .error ve => .error (.validation ve)
  | .ok fn =>
    match validateDate args.date "date" today with
    | .error ve => .error (.validation ve)
    | .ok d => .ok (mkTextResponse (renderStatusText (getFlightStatusLines fn d r)))

/-- A record of the fallback airport table of getAirportInfo.  Coordinates
are stored as their rendered decimal strings (the source stores number
literals and only ever interpolates them into the result text). -/
structure AirportRecord where
  code : String
  name : String
  city : String
  country : String
  timezone : String
  lat : String
  lon : String
deriving DecidableEq, Repr

/-- The fallback airport table of getAirportInfo (index.js lines 376-409). -/
def mockAirports : List (String × AirportRecord) :=
  [("LAX", ⟨"LAX", "Los Angeles International Airport", "Los Angeles", "United States",
            "America/Los_Angeles", "33.9425", "-118.4081"⟩),
   ("JFK", ⟨"JFK", "John F. Kennedy International Airport", "New York", "United States",
            "America/New_York", "40.6413", "-73.7781"⟩),
   ("LHR", ⟨"LHR", "London Heathrow Airport", "London", "United Kingdom",
            "Europe/London", "51.47", "-0.4543"⟩),
   ("NRT", ⟨"NRT", "Narita International Airport", "Tokyo", "Japan",
            "Asia/Tokyo", "35.7719", "140.3928"⟩)]

/-- The result text of getAirportInfo for a found airport. -/
def formatAirportText (a : AirportRecord) (useRealAPI : Bool) : String :=
  "Airport Information\\n\\n" ++
  "Code: " ++ a.code ++ "\\n" ++
  "Name: " ++ a.name ++ "\\n" ++
  "City: " ++ a.city ++ "\\n" ++
  "Country: " ++ a.country ++ "\\n" ++
  "Timezone: " ++ a.timezone ++ "\\n" ++
  "Coordinates: " ++ a.lat ++ ", " ++ a.lon ++ "\\n\\n" ++
  (if useRealAPI then "Data from Amadeus API" else "Sample data")

/-- The argument record of get_airport_info. -/
structure AirportArgs where
  airport_code : Option String
deriving DecidableEq, Repr

/-- getAirportInfo of index.js in Fallback mode (lines 365-449): validate,
look the code up in the fallback table, miss throws a FlightAPIError with
code INVALID_AIRPORT_CODE. -/
def getAirportInfoTool (args : AirportArgs) : Except JSError ToolResponse :=
  match validateAirportCode args.airport_code with
  | .error ve => .error (.validation ve)
  | .ok code =>
    match (mockAirports.lookup code) with
    | none => .error (.api ⟨"Airport information not found for code: " ++ code,
                            "INVALID_AIRPORT_CODE", [("airport_code", code)]⟩)
    | some a => .ok (mkTextResponse (formatAirportText a false))

/-- A record of the fallback airline table of getAirlineInfo; founded is
the numeric founding year. -/
structure AirlineRecord where
  name : String
  country : String
  founded : ℕ
  hub : String
  fleet_size : String
  destinations : String
deriving DecidableEq, Repr

/-- The fallback airline table of getAirlineInfo (index.js lines 510-543). -/
def mockAirlinesTable : List (String × AirlineRecord) :=
  [("AA", ⟨"American Airlines", "United States", 1930,
           "Dallas/Fort Worth International Airport", "850+", "350+"⟩),
   ("DL", ⟨"Delta Air Lines", "United States", 1924,
           "Hartsfield-Jackson Atlanta International Airport", "800+", "325+"⟩),
   ("UA", ⟨"United Airlines", "United States", 1926,
           "Chicago O\x27Hare International Airport", "800+", "340+"⟩),
   ("LH", ⟨"Lufthansa", "Germany", 1953, "Frankfurt Airport", "300+", "220+"⟩)]

/-- The result text of getAirlineInfo for a found airline. -/
def formatAirlineText (code : String) (a : AirlineRecord) : String :=
  "Airline Information\\n\\n" ++
  "Code: " ++ code ++ "\\n" ++
  "Name: " ++ a.name ++ "\\n" ++
  "Country: " ++ a.country ++ "\\n" ++
  "Founded: " ++ natToString a.founded ++ "\\n" ++
  "Main Hub: " ++ a.hub ++ "\\n" ++
  "Fleet Size: " ++ a.fleet_size ++ "\\n" ++
  "Destinations: " ++ a.destinations

/-- The argument record of get_airline_info. -/
structure AirlineArgs where
  airline_code : Option String
deriving DecidableEq, Repr

/-- The inline 2-3 letter shape check of getAirlineInfo. -/
def airlineCodeShape (s : String) : Bool :=
  (s.length = 2 || s.length = 3) && s.data.all isAsciiLetter

/-- getAirlineInfo of index.js (lines 493-572): inline validation, fixed
table lookup, miss throws a FlightAPIError with code FLIGHT_NOT_FOUND. -/
def getAirlineInfoTool (args : AirlineArgs) : Except JSError ToolResponse :=
  match args.airline_code with
  | none => .error (.validation ⟨"Airline code is required", "airline_code", none⟩)
  | some c =>
    if c = "" then
      .error (.validation ⟨"Airline code is required", "airline_code", some c⟩)
    else if ¬ airlineCodeShape c then
      .error (.validation ⟨"Airline code must be 2-3 letters (e.g., AA, DL, UA)",
                           "airline_code", some c⟩)
    else
      let code := jsToUpper c
      match mockAirlinesTable.lookup code with
      | none => .error (.api ⟨"Airline information not found for code: " ++ code,
                              "FLIGHT_NOT_FOUND", [("airline_code", code)]⟩)
      | some a => .ok (mkTextResponse (formatAirlineText code a))

/-- JSON.stringify(details, null, 2) for the string-valued detail maps of
this program: pretty-printing with indent 2 puts an actual newline byte
after the opening brace, between entries, and before the closing brace. -/
def jsonStringifyPretty (d : List (String × String)) : String :=
  match d with
  | [] => "\x7b\x7d"
  | _ =>
    "\x7b\n" ++
    String.intercalate ",\n"
      (d.map (fun kv => "  \x22" ++ kv.1 ++ "\x22: \x22" ++ kv.2 ++ "\x22")) ++
    "\n\x7d"

/-- Rendered value of a ValidationError in a template literal: undefined
and null render as the corresponding words. -/
def renderErrValue : Option String → String
  | none => "undefined"
  | some s => s

/-- formatError of errorHandler.js (lines 123-163). -/
def formatError (error : JSError) : ToolResponse :=
  match error with
  | .validation e =>
    mkTextResponse ("Validation Error: " ++ e.message ++ "\\n\\nField: " ++ e.field ++
      "\\nValue: " ++ renderErrValue e.value)
  | .api e =>
    mkTextResponse ("Flight API Error: " ++ e.message ++ "\\n\\nError Code: " ++ e.code ++
      (if e.details.length ≠ 0 then "\\n\\nDetails:\\n" ++ jsonStringifyPretty e.details
       else ""))
  | .other message =>
    mkTextResponse ("An unexpected error occurred: " ++ message ++
      "\\n\\nPlease try again later or contact support if the issue persists.")

/-- A named tool invocation as received by the CallToolRequestSchema
handler. -/
inductive ToolRequest where
  | search (args : SearchArgs)
  | airport (args : AirportArgs)
  | status (args : StatusArgs)
  | airline (args : AirlineArgs)
  | unknownTool (name : String)
deriving Repr

/-- The switch of the CallToolRequestSchema handler (index.js lines
172-189) in Fallback mode, before its catch clause.  The unknown-tool
branch passes `errorCodes.GENERAL_ERROR` — a key the errorCodes object
does not define, so the constructor default "GENERAL_ERROR" applies. -/
def dispatchTool (req : ToolRequest) (today : YMD)
    (searchRands : Fin 5 → FlightRand) (statusRand : StatusRand) :
    Except JSError ToolResponse :=
  match req with
  | .search args =>
    searchFlightsTool
      (fun c => generateMockFlights c.origin c.destination c.departure_date
        c.return_date c.adults c.travel_class searchRands)
      false args today
  | .airport args => getAirportInfoTool args
  | .status args => getFlightStatusTool args today statusRand
  | .airline args => getAirlineInfoTool args
  | .unknownTool name =>
    .error (.api ⟨"Unknown tool: " ++ name, "GENERAL_ERROR", []⟩)

/-- The catch clause of the CallToolRequestSchema handler: every thrown
error is converted by formatError into an ordinary response. -/
def callToolBoundary (r : Except JSError ToolResponse) : ToolResponse :=
  match r with
  | .ok resp => resp
  | .error e => formatError e

/-- The complete CallToolRequestSchema handler: dispatch, catching every
error at the boundary. -/
def handleToolRequest (req : ToolRequest) (today : YMD)
    (searchRands : Fin 5 → FlightRand) (statusRand : StatusRand) : ToolResponse :=
  callToolBoundary (dispatchTool req today searchRands statusRand)

/-- One entry of `error.response.data.errors` of an Amadeus failure:
numeric provider code and detail text. -/
structure AmadeusErrEntry where
  code : ℕ
  detail : String
deriving DecidableEq, Repr

/-- `error.response.data` of an Amadeus failure (`none` models a missing
errors array; the handler checks `amadeusError.errors && length > 0`). -/
structure AmadeusErrData where
  errors : List AmadeusErrEntry
deriving DecidableEq, Repr

/-- `error.response` of an Amadeus failure: optional data body and
optional HTTP status. -/
structure AmadeusErrResponse where
  data : Option AmadeusErrData
  status : Option ℕ
deriving DecidableEq, Repr

/-- An exception caught by the catch clause of
AmadeusFlightService.searchFlights that is not one of our own
FlightAPIError throws: optional response, optional Node error code
(ENOTFOUND, ECONNREFUSED, ...), and the message. -/
structure CaughtError where
  response : Option AmadeusErrResponse
  code : Option String
  message : String
deriving DecidableEq, Repr

/-- The catch clause of AmadeusFlightService.searchFlights
(amadeusClient.js lines 63-123) applied to a caught provider exception, in
source order: structured Amadeus errors (bad location 38189, bad date
4926, any other), then network error codes, then HTTP 429, then the
generic fallback.  Our own FlightAPIError throws are re-raised unchanged
before these checks and are handled by the caller `amadeusSearchFlights`
below. -/
def handleAmadeusSearchError (error : CaughtError) : FlightAPIErr :=
  let structured : Option FlightAPIErr :=
    match error.response with
    | none => none
    | some resp =>
      match resp.data with
      | none => none
      | some d =>
        match d.errors with
        | [] => none
        | firstError :: _ =>
          if firstError.code = 38189 then
            some ⟨"Invalid airport code provided", "INVALID_AIRPORT_CODE",
                  [("detail", firstError.detail)]⟩
          else if firstError.code = 4926 then
            some ⟨"Invalid date format or date in the past", "INVALID_DATE_FORMAT",
                  [("detail", firstError.detail)]⟩
          else
            some ⟨firstError.detail, "API_UNAVAILABLE",
                  [("code", natToString firstError.code), ("detail", firstError.detail)]⟩
  match structured with
  | some e => e
  | none =>
    if error.code = some "ENOTFOUND" || error.code = some "ECONNREFUSED" then
      ⟨"Unable to connect to flight data service", "NETWORK_ERROR",
       [("originalError", error.message)]⟩
    else if (match error.response with
             | some resp => resp.status == some 429
             | none => false) then
      ⟨"API rate limit exceeded. Please try again later", "API_RATE_LIMIT", []⟩
    else
      ⟨"Failed to search flights", "API_UNAVAILABLE", [("originalError", error.message)]⟩

/-- Outcome of the awaited Amadeus search call: a response (whose data may
be missing or empty) or a thrown exception. -/
inductive AmadeusOutcome where
  | success (data : Option (List String))
  | failure (e : CaughtError)
deriving Repr

/-- AmadeusFlightService.searchFlights reduced to its error behaviour: the
`!response.data || response.data.length === 0` check throws FLIGHT_NOT_FOUND
(re-raised unchanged by the catch clause because it is a FlightAPIError),
any other exception goes through handleAmadeusSearchError.  Offers are
left unnormalised (opaque strings) — offer normalisation is irrelevant to
the failure mapping. -/
def amadeusSearchFlights (outcome : AmadeusOutcome) : Except FlightAPIErr (List String) :=
  match outcome with
  | .success data =>
    match data with
    | none => .error ⟨"No flights found for the specified criteria", "FLIGHT_NOT_FOUND", []⟩
    | some offers =>
      if offers.isEmpty then
        .error ⟨"No flights found for the specified criteria", "FLIGHT_NOT_FOUND", []⟩
      else .ok offers
  | .failure e => .error (handleAmadeusSearchError e)

/-- Modelled from the claim text of C2, independently of the source: the
failure mapping in the precedence order the claim states — (1) empty offer
list, (2) structured bad-location error, (3) structured bad-date error,
(4) any other structured error, (5) DNS/connection-refused failure,
(6) HTTP 429, (7) anything else. -/
def specFailureMapping (outcome : AmadeusOutcome) : Except FlightAPIErr (List String) :=
  match outcome with
  | .success none =>
    .error ⟨"No flights found for the specified criteria", "FLIGHT_NOT_FOUND", []⟩
  | .success (some []) =>
    .error ⟨"No flights found for the specified criteria", "FLIGHT_NOT_FOUND", []⟩
  | .success (some offers) => .ok offers
  | .failure e =>
    match e.response with
    | some ⟨some ⟨firstError :: _⟩, _⟩ =>
      if firstError.code = 38189 then
        .error ⟨"Invalid airport code provided", "INVALID_AIRPORT_CODE",
                [("detail", firstError.detail)]⟩
      else if firstError.code = 4926 then
        .error ⟨"Invalid date format or date in the past", "INVALID_DATE_FORMAT",
                [("detail", firstError.detail)]⟩
      else
        .error ⟨firstError.detail, "API_UNAVAILABLE",
                [("code", natToString firstError.code), ("detail", firstError.detail)]⟩
    | _ =>
      if e.code = some "ENOTFOUND" || e.code = some "ECONNREFUSED" then
        .error ⟨"Unable to connect to flight data service", "NETWORK_ERROR",
                [("originalError", e.message)]⟩
      else if (e.response.bind AmadeusErrResponse.status) = some 429 then
        .error ⟨"API rate limit exceeded. Please try again later", "API_RATE_LIMIT", []⟩
      else
        .error ⟨"Failed to search flights", "API_UNAVAILABLE", [("originalError", e.message)]⟩

/-- The single text payload of a tool response. -/
def payloadText (r : ToolResponse) : String := (r.content.headD ⟨"", ""⟩).text

/-- A string holds no actual newline byte (the wire-payload property of the
spec: line breaks are the literal backslash-n pair, never the byte 0x0A). -/
def noNL (s : String) : Prop := ∀ c ∈ s.data, c ≠ '\n'

instance (s : String) : Decidable (noNL s) := by
  unfold noNL; infer_instance

lemma noNL_append {a b : String} (ha : noNL a) (hb : noNL b) : noNL (a ++ b) := by
  intro c hc
  rw [String.data_append] at hc
  rcases List.mem_append.mp hc with h | h
  · exact ha c h
  · exact hb c h

lemma noNL_concatAll {L : List String} (h : ∀ s ∈ L, noNL s) : noNL (concatAll L) := by
  induction L with
  | nil => intro c hc; simp [concatAll] at hc
  | cons x xs ih =>
    have hx : noNL x := h x (by simp)
    have hxs : noNL (concatAll xs) := ih (fun s hs => h s (by simp [hs]))
    exact noNL_append hx hxs

lemma jsFloorMulAdd_lt {k : ℕ} (mul add : ℕ) (hk : k < N53) (hm : 0 < mul) :
    jsFloorMulAdd k mul add < mul + add := by
  have : k * mul / N53 < mul := by
    rw [Nat.div_lt_iff_lt_mul (by norm_num [N53])]
    calc k * mul < N53 * mul := (Nat.mul_lt_mul_right hm).mpr hk
      _ = mul * N53 := Nat.mul_comm _ _
  unfold jsFloorMulAdd; omega

lemma jsFloorMulAdd_ge (k mul add : ℕ) : add ≤ jsFloorMulAdd k mul add :=
  Nat.le_add_left add _

lemma natToDigitsRev_zero (fuel : ℕ) : natToDigitsRev fuel 0 = [] := by
  cases fuel <;> simp [natToDigitsRev]

lemma natToDigitsRev_lt_ten {fuel n d : ℕ} (h : d ∈ natToDigitsRev fuel n) : d < 10 := by
  induction fuel generalizing n with
  | zero => simp [natToDigitsRev] at h
  | succ f ih =>
    simp only [natToDigitsRev] at h
    by_cases hn : n = 0
    · simp [hn] at h
    · simp [hn] at h
      rcases h with h | h
      · omega
      · exact ih h

lemma digitChar_isDigit {d : ℕ} (h : d < 10) : isDigitChar (Nat.digitChar d) = true := by
  interval_cases d <;> decide

lemma digitChar_ne_newline {d : ℕ} (h : d < 10) : Nat.digitChar d ≠ '\n' := by
  interval_cases d <;> decide

lemma natToString_digits (n : ℕ) : ∀ c ∈ (natToString n).data, isDigitChar c = true := by
  intro c hc
  unfold natToString at hc
  by_cases hn : n = 0
  · simp [hn] at hc
    subst hc; decide
  · simp [hn, String.mk] at hc
    rcases hc with ⟨d, hd, rfl⟩
    exact digitChar_isDigit (natToDigitsRev_lt_ten hd)

lemma noNL_natToString (n : ℕ) : noNL (natToString n) := by
  intro c hc
  have := natToString_digits n c hc
  intro h; subst h; simp [isDigitChar] at this

lemma noNL_pad2 {s : String} (h : noNL s) : noNL (pad2 s) := by
  unfold pad2
  split
  · exact noNL_append (by decide) h
  · exact h

lemma noNL_generateRandomTime (hk mk : ℕ) : noNL (generateRandomTime hk mk) := by
  unfold generateRandomTime
  exact noNL_append (noNL_append (noNL_pad2 (noNL_natToString _)) (by decide))
    (noNL_pad2 (noNL_natToString _))

lemma natToDigitsRev_four {fuel n : ℕ} (hf : 4 ≤ fuel) (h1 : 1000 ≤ n) (h2 : n ≤ 9999) :
    natToDigitsRev fuel n = [n % 10, n / 10 % 10, n / 100 % 10, n / 1000] := by
  obtain ⟨f, rfl⟩ : ∃ f, fuel = f + 4 := ⟨fuel - 4, by omega⟩
  have e1 : n ≠ 0 := by omega
  have e2 : n / 10 ≠ 0 := by omega
  have e3 : n / 10 / 10 ≠ 0 := by omega
  have e4 : n / 10 / 10 / 10 ≠ 0 := by omega
  have e5 : n / 10 / 10 / 10 / 10 = 0 := by omega
  show natToDigitsRev (f + 1 + 1 + 1 + 1) n = _
  rw [natToDigitsRev, if_neg e1]
  rw [natToDigitsRev, if_neg e2]
  rw [natToDigitsRev, if_neg e3]
  rw [natToDigitsRev, if_neg e4]
  rw [e5, natToDigitsRev_zero]
  have h100 : n / 10 / 10 = n / 100 := by
    rw [Nat.div_div_eq_div_mul]
  have h1000 : n / 100 / 10 = n / 1000 := by
    rw [Nat.div_div_eq_div_mul]
  have hlast : n / 1000 % 10 = n / 1000 := Nat.mod_eq_of_lt (by omega)
  simp [h100, h1000, hlast]

lemma natToString_four {n : ℕ} (h1 : 1000 ≤ n) (h2 : n ≤ 9999) :
    (natToString n).data =
      [Nat.digitChar (n / 1000), Nat.digitChar (n / 100 % 10),
       Nat.digitChar (n / 10 % 10), Nat.digitChar (n % 10)] := by
  have hn : n ≠ 0 := by omega
  unfold natToString
  rw [if_neg hn]
  rw [natToDigitsRev_four (by omega) h1 h2]
  rfl

/-- The flight-number pattern every mock offer actually satisfies: one of
the five generator airline codes (two characters, each an uppercase letter
or — for B6 — a digit) followed by exactly four decimal digits. -/
def mockFlightNumberOK (s : String) : Bool :=
  match s.data with
  | a :: b :: rest =>
    ((isUpperLetter a && isUpperLetter b) || (a = 'B' && b = '6')) &&
    rest.length = 4 && rest.all isDigitChar
  | _ => false

/-- The flight-number pattern the claim states: ^[A-Z]\x7b2\x7d\d\x7b4\x7d$. -/
def claimFlightNumberPattern (s : String) : Bool :=
  match s.data with
  | [a, b, c1, c2, c3, c4] =>
    isUpperLetter a && isUpperLetter b && isDigitChar c1 && isDigitChar c2 &&
    isDigitChar c3 && isDigitChar c4
  | _ => false

lemma suffix_bounds {k : ℕ} (hk : k < N53) :
    1000 ≤ jsFloorMulAdd k 9000 1000 ∧ jsFloorMulAdd k 9000 1000 ≤ 9999 := by
  refine ⟨jsFloorMulAdd_ge _ _ _, ?_⟩
  have := jsFloorMulAdd_lt 9000 1000 hk (by norm_num)
  omega

lemma basePrice_bounds {k : ℕ} (hk : k < N53) :
    200 ≤ jsFloorMulAdd k 800 200 ∧ jsFloorMulAdd k 800 200 ≤ 999 := by
  refine ⟨jsFloorMulAdd_ge _ _ _, ?_⟩
  have := jsFloorMulAdd_lt 800 200 hk (by norm_num)
  omega

lemma airlineIdx_lt {k : ℕ} (hk : k < N53) : jsFloorMulAdd k 5 0 < 5 := by
  have := jsFloorMulAdd_lt 5 0 hk (by norm_num)
  omega

lemma mkMockFlight_flight_number (o d dep tc : String) (adults : ℕ) (r : FlightRand)
    (hr : r.Valid) :
    mockFlightNumberOK (mkMockFlight o d dep tc adults r).flight_number = true := by
  obtain ⟨ha, hnum, -⟩ := hr
  have hidx := airlineIdx_lt ha
  obtain ⟨hs1, hs2⟩ := suffix_bounds hnum
  have hdata := natToString_four hs1 hs2
  set n := jsFloorMulAdd r.numK 9000 1000 with hn
  have hd1 : n / 1000 < 10 := by omega
  have hd2 : n / 100 % 10 < 10 := by omega
  have hd3 : n / 10 % 10 < 10 := by omega
  have hd4 : n % 10 < 10 := by omega
  show mockFlightNumberOK ((mockAirlines.getD (jsFloorMulAdd r.airlineK 5 0) ("", "")).1 ++
    natToString n) = true
  interval_cases h : jsFloorMulAdd r.airlineK 5 0 <;>
    · simp only [mockAirlines, List.getD]
      unfold mockFlightNumberOK
      rw [String.data_append, hdata]
      simp [digitChar_isDigit hd1, digitChar_isDigit hd2, digitChar_isDigit hd3,
        digitChar_isDigit hd4]
      all_goals decide

lemma mkMockFlight_price_pos (o d dep tc : String) {adults : ℕ} (r : FlightRand)
    (ha : 1 ≤ adults) (hr : r.Valid) :
    0 < (mkMockFlight o d dep tc adults r).price.amount := by
  obtain ⟨-, -, hp, -⟩ := hr
  have := (basePrice_bounds hp).1
  show 0 < jsFloorMulAdd r.priceK 800 200 * adults
  exact Nat.mul_pos (by omega) (by omega)

lemma priceLE_trans : ∀ a b c : Flight,
    priceLE a b = true → priceLE b c = true → priceLE a c = true := by
  intro a b c hab hbc
  simp only [priceLE, decide_eq_true_eq] at *
  omega

lemma priceLE_total : ∀ a b : Flight, (priceLE a b || priceLE b a) = true := by
  intro a b
  simp only [priceLE, Bool.or_eq_true, decide_eq_true_eq]
  omega

lemma generateMockFlights_length (o d dep : String) (ret : Option String)
    (adults : ℕ) (tc : String) (rands : Fin 5 → FlightRand) :
    (generateMockFlights o d dep ret adults tc rands).length = 5 := by
  unfold generateMockFlights
  rw [List.length_mergeSort, List.length_map]
  rfl

lemma generateMockFlights_sorted (o d dep : String) (ret : Option String)
    (adults : ℕ) (tc : String) (rands : Fin 5 → FlightRand) :
    List.Pairwise (fun a b : Flight => a.price.amount ≤ b.price.amount)
      (generateMockFlights o d dep ret adults tc rands) := by
  unfold generateMockFlights
  have := List.sorted_mergeSort priceLE_trans priceLE_total
    ((List.finRange 5).map
      (fun i => mkMockFlight o d dep tc adults (rands i)))
  exact this.imp (fun h => by simpa [priceLE] using h)

lemma generateMockFlights_mem {o d dep : String} {ret : Option String}
    {adults : ℕ} {tc : String} {rands : Fin 5 → FlightRand} {f : Flight}
    (h : f ∈ generateMockFlights o d dep ret adults tc rands) :
    ∃ i : Fin 5, f = mkMockFlight o d dep tc adults (rands i) := by
  unfold generateMockFlights at h
  rw [List.mem_mergeSort] at h
  rcases List.mem_map.mp h with ⟨i, -, rfl⟩
  exact ⟨i, rfl⟩

lemma validatePassengerCount_ge_one {x : Option ℤ} {n : ℕ}
    (h : validatePassengerCount x = .ok n) : 1 ≤ n := by
  unfold validatePassengerCount at h
  cases x with
  | none => simp at h; omega
  | some c =>
    simp only at h
    split at h
    · cases h
    · rename_i hc
      simp only [Except.ok.injEq] at h
      subst h
      simp only [Bool.or_eq_true, not_or, decide_eq_true_eq] at hc
      omega

lemma searchFlightsValidate_ok {args : SearchArgs} {today : YMD} {c : Criteria}
    (h : searchFlightsValidate args today = .ok c) :
    validateAirportCode args.origin = .ok c.origin ∧
    validateAirportCode args.destination = .ok c.destination ∧
    validateDate args.departure_date "departure_date" today = .ok c.departure_date ∧
    validatePassengerCount args.adults = .ok c.adults ∧
    validateTravelClass args.travel_class = .ok c.travel_class ∧
    c.origin ≠ c.destination := by
  unfold searchFlightsValidate at h
  cases ho : validateAirportCode args.origin with
  | error e => rw [ho] at h; simp [Bind.bind, Except.bind] at h
  | ok o =>
  rw [ho] at h
  cases hd : validateAirportCode args.destination with
  | error e => rw [hd] at h; simp [Bind.bind, Except.bind] at h
  | ok d =>
  rw [hd] at h
  cases hdep : validateDate args.departure_date "departure_date" today with
  | error e => rw [hdep] at h; simp [Bind.bind, Except.bind] at h
  | ok dep =>
  rw [hdep] at h
  cases had : validatePassengerCount args.adults with
  | error e => rw [had] at h; simp [Bind.bind, Except.bind] at h
  | ok adults =>
  rw [had] at h
  cases htc : validateTravelClass args.travel_class with
  | error e => rw [htc] at h; simp [Bind.bind, Except.bind] at h
  | ok tc =>
  rw [htc] at h
  simp only [Bind.bind, Except.bind] at h
  rcases hret : args.return_date with - | r
  · rw [hret] at h
    dsimp only at h
    simp only [pure, Except.pure] at h
    split at h
    · cases h
    · rename_i hne
      simp only [Except.ok.injEq] at h
      subst h
      exact ⟨rfl, rfl, rfl, rfl, rfl, hne⟩
  · rw [hret] at h
    dsimp only at h
    by_cases hre : r = ""
    · rw [if_pos hre] at h
      simp only [pure, Except.pure] at h
      split at h
      · cases h
      · rename_i hne
        simp only [Except.ok.injEq] at h
        subst h
        exact ⟨rfl, rfl, rfl, rfl, rfl, hne⟩
    · rw [if_neg hre] at h
      cases hrv : validateDate (some r) "return_date" today with
      | error e => rw [hrv] at h; simp [Bind.bind, Except.bind] at h
      | ok rv =>
        rw [hrv] at h
        dsimp only at h
        split at h
        · cases h
        · simp only [pure, Except.pure] at h
          split at h
          · cases h
          · rename_i hne
            simp only [Except.ok.injEq] at h
            subst h
            exact ⟨rfl, rfl, rfl, rfl, rfl, hne⟩

/-- Claim C3: for every input string to date validation, a string not
matching the date regex, or not denoting a real calendar date, or denoting
a date strictly before the current date, fails with a validation error;
today or any future valid calendar date in that format succeeds and is
returned unchanged. -/
theorem C3_date_validation (s fieldName : String) (today : YMD) :
    (parseYMD s = none →
      ∃ e, validateDate (some s) fieldName today = .error e) ∧
    (∀ d, parseYMD s = some d → d.isReal = false →
      ∃ e, validateDate (some s) fieldName today = .error e) ∧
    (∀ d, parseYMD s = some d → d.isReal = true → d.lt today = true →
      ∃ e, validateDate (some s) fieldName today = .error e) ∧
    (∀ d, parseYMD s = some d → d.isReal = true → d.lt today = false →
      validateDate (some s) fieldName today = .ok s) := by
  refine ⟨?_, ?_, ?_, ?_⟩
  · intro hp
    by_cases hs : s = ""
    · exact ⟨⟨fieldName ++ " is required", fieldName, some s⟩, by simp [validateDate, hs]⟩
    · exact ⟨⟨fieldName ++ " must be in YYYY-MM-DD format", fieldName, some s⟩,
        by simp [validateDate, hs, hp]⟩
  · intro d hp hreal
    have hs : s ≠ "" := by
      intro h; rw [h] at hp; simp [parseYMD] at hp
    exact ⟨⟨"Invalid " ++ fieldName, fieldName, some s⟩,
      by simp [validateDate, hs, hp, hreal]⟩
  · intro d hp hreal hlt
    have hs : s ≠ "" := by
      intro h; rw [h] at hp; simp [parseYMD] at hp
    exact ⟨⟨fieldName ++ " cannot be in the past", fieldName, some s⟩,
      by simp [validateDate, hs, hp, hreal, hlt]⟩
  · intro d hp hreal hlt
    have hs : s ≠ "" := by
      intro h; rw [h] at hp; simp [parseYMD] at hp
    simp [validateDate, hs, hp, hreal, hlt]

/-- Witness for C3 at concrete inputs: a future date is returned
unchanged, and a past date is rejected. -/
theorem C3_witness :
    validateDate (some "2026-12-25") "date" ⟨2026, 10, 12⟩ = .ok "2026-12-25" ∧
    (∃ e, validateDate (some "2020-01-01") "date" ⟨2026, 10, 12⟩ = .error e) :=
  ⟨(C3_date_validation "2026-12-25" "date" ⟨2026, 10, 12⟩).2.2.2 ⟨2026, 12, 25⟩
      (by decide) (by decide) (by decide),
   (C3_date_validation "2020-01-01" "date" ⟨2026, 10, 12⟩).2.2.1 ⟨2020, 1, 1⟩
      (by decide) (by decide) (by decide)⟩

/-- Claim C5, amended: a 3-letter input is accepted and normalized to
uppercase; any input of length other than 3 or containing a non-letter is
rejected — but with a ValidationError naming the field airport_code, not
with a domain InvalidAirportCode error as the claim states. -/
theorem C5_airport_code_validation (s : String) :
    (s.length = 3 → s.data.all isAsciiLetter = true →
      validateAirportCode (some s) = .ok (jsToUpper s)) ∧
    ((s.length ≠ 3 ∨ s.data.all isAsciiLetter = false) →
      ∃ e, validateAirportCode (some s) = .error e ∧ e.field = "airport_code") := by
  constructor
  · intro h3 hall
    have hs : s ≠ "" := by intro h; rw [h] at h3; simp at h3
    simp [validateAirportCode, hs, h3, hall]
  · intro hbad
    by_cases hs : s = ""
    · exact ⟨⟨"Airport code is required", "airport_code", some s⟩,
        by simp [validateAirportCode, hs], rfl⟩
    · by_cases h3 : s.length = 3
      · rcases hbad with h | hall
        · exact absurd h3 h
        · exact ⟨⟨"Airport code must contain only letters", "airport_code", some s⟩,
            by simp [validateAirportCode, hs, h3, hall], rfl⟩
      · exact ⟨⟨"Airport code must be 3 characters long", "airport_code", some s⟩,
          by simp [validateAirportCode, hs, h3], rfl⟩

/-- Counterexample for C5 as stated: the rejection of "A1B" is a
ValidationError, and the payload the caller sees carries no
INVALID_AIRPORT_CODE error code — it is a Validation Error payload. -/
theorem C5_counterexample :
    validateAirportCode (some "A1B") =
      .error ⟨"Airport code must contain only letters", "airport_code", some "A1B"⟩ ∧
    ¬ ("Error Code: INVALID_AIRPORT_CODE".data <:+:
        (payloadText (formatError (.validation
          ⟨"Airport code must contain only letters", "airport_code", some "A1B"⟩))).data) ∧
    ("Validation Error: ".data <:+:
        (payloadText (formatError (.validation
          ⟨"Airport code must contain only letters", "airport_code", some "A1B"⟩))).data) :=
  ⟨by decide, by decide, by decide⟩

/-- Witness for C5 at concrete inputs: lowercase input is normalized to
uppercase, and a 2-character input is rejected on the airport_code
field. -/
theorem C5_witness :
    validateAirportCode (some "lax") = .ok "LAX" ∧
    (∃ e, validateAirportCode (some "LA") = .error e ∧ e.field = "airport_code") :=
  ⟨by
    have := (C5_airport_code_validation "lax").1 (by decide) (by decide)
    simpa using this,
   (C5_airport_code_validation "LA").2 (Or.inl (by decide))⟩

/-- Claim C10: travel-class validation rejects only truthy values outside
the enumeration; undefined, null and the empty string all default to
economy, and a search_flights call with travel_class = "" validates with
class economy. -/
theorem C10_travel_class_default (s : String) (args : SearchArgs) (today : YMD)
    (c : Criteria) :
    validateTravelClass none = .ok "economy" ∧
    validateTravelClass (some "") = .ok "economy" ∧
    (s ≠ "" → s ∉ validClasses →
      validateTravelClass (some s) =
        .error ⟨"Travel class must be one of: economy, premium_economy, business, first",
                "travel_class", some s⟩) ∧
    (s ∈ validClasses → validateTravelClass (some s) = .ok s) ∧
    (args.travel_class = some "" → searchFlightsValidate args today = .ok c →
      c.travel_class = "economy") := by
  refine ⟨by decide, by decide, ?_, ?_, ?_⟩
  · intro hne hcon
    simp [validateTravelClass, hne, hcon]
  · intro hcon
    have hne : s ≠ "" := by
      simp [validClasses] at hcon
      rcases hcon with h | h | h | h <;> subst h <;> decide
    simp [validateTravelClass, hne, hcon]
  · intro htc hok
    have h := (searchFlightsValidate_ok hok).2.2.2.2.1
    rw [htc] at h
    have : validateTravelClass (some "") = .ok "economy" := by decide
    rw [this] at h
    exact (Except.ok.injEq _ _).mp h.symm

/-- Witness for C10: a full search_flights validation with
travel_class = "" succeeds with class economy, and a truthy value outside
the enumeration is rejected. -/
theorem C10_witness :
    Criteria.travel_class ⟨"LAX", "JFK", "2026-03-15", none, 1, "economy"⟩ = "economy" ∧
    validateTravelClass (some "luxury") =
      .error ⟨"Travel class must be one of: economy, premium_economy, business, first",
              "travel_class", some "luxury"⟩ :=
  ⟨(C10_travel_class_default "x" ⟨some "LAX", some "JFK", some "2026-03-15", none, none, some ""⟩
      ⟨2026, 1, 1⟩ ⟨"LAX", "JFK", "2026-03-15", none, 1, "economy"⟩).2.2.2.2
      rfl (by decide),
   (C10_travel_class_default "luxury" ⟨none, none, none, none, none, none⟩ ⟨2026, 1, 1⟩
      ⟨"", "", "", none, 1, ""⟩).2.2.1 (by decide) (by decide)⟩

/-- Claim C4, amended: for search_flights calls whose per-field arguments
are individually valid, a supplied return_date not strictly after the
departure_date fails with a validation error naming return_date, and the
normalized origin equalling the normalized destination fails with a
validation error naming destination — with the return-date check performed
first, so when both rules are violated the error names return_date.  In
every such case the flight source (provider or generator) is never
invoked: the result is the same for every `search` function. -/
theorem C4_cross_field_validation (args : SearchArgs) (today : YMD)
    (o d dep : String) (a : ℕ) (tc : String)
    (hvo : validateAirportCode args.origin = .ok o)
    (hvd : validateAirportCode args.destination = .ok d)
    (hdep : validateDate args.departure_date "departure_date" today = .ok dep)
    (hva : validatePassengerCount args.adults = .ok a)
    (hvt : validateTravelClass args.travel_class = .ok tc) :
    (∀ r, args.return_date = some r → r ≠ "" →
      validateDate (some r) "return_date" today = .ok r →
      (parseYMDD r).le (parseYMDD dep) = true →
      searchFlightsValidate args today =
        .error ⟨"Return date must be after departure date", "return_date", some r⟩ ∧
      ∀ search useRealAPI, searchFlightsTool search useRealAPI args today =
        .error (.validation
          ⟨"Return date must be after departure date", "return_date", some r⟩)) ∧
    (args.return_date = none → o = d →
      searchFlightsValidate args today =
        .error ⟨"Origin and destination airports must be different", "destination",
                args.destination⟩ ∧
      ∀ search useRealAPI, searchFlightsTool search useRealAPI args today =
        .error (.validation
          ⟨"Origin and destination airports must be different", "destination",
           args.destination⟩)) ∧
    (∀ r, args.return_date = some r → r ≠ "" →
      validateDate (some r) "return_date" today = .ok r →
      (parseYMDD r).le (parseYMDD dep) = false → o = d →
      searchFlightsValidate args today =
        .error ⟨"Origin and destination airports must be different", "destination",
                args.destination⟩ ∧
      ∀ search useRealAPI, searchFlightsTool search useRealAPI args today =
        .error (.validation
          ⟨"Origin and destination airports must be different", "destination",
           args.destination⟩)) := by
  refine ⟨?_, ?_, ?_⟩
  · intro r hret hre hrv hle
    have key : searchFlightsValidate args today =
        .error ⟨"Return date must be after departure date", "return_date", some r⟩ := by
      unfold searchFlightsValidate
      rw [hvo, hvd, hdep, hva, hvt]
      simp only [Bind.bind, Except.bind]
      rw [hret]
      dsimp only
      rw [if_neg hre, hrv]
      dsimp only
      rw [if_pos hle]
    exact ⟨key, fun search useRealAPI => by
      unfold searchFlightsTool; rw [key]⟩
  · intro hret heq
    have key : searchFlightsValidate args today =
        .error ⟨"Origin and destination airports must be different", "destination",
                args.destination⟩ := by
      unfold searchFlightsValidate
      rw [hvo, hvd, hdep, hva, hvt]
      simp only [Bind.bind, Except.bind]
      rw [hret]
      dsimp only
      simp only [pure, Except.pure]
      rw [if_pos heq]
    exact ⟨key, fun search useRealAPI => by
      unfold searchFlightsTool; rw [key]⟩
  · intro r hret hre hrv hle heq
    have key : searchFlightsValidate args today =
        .error ⟨"Origin and destination airports must be different", "destination",
                args.destination⟩ := by
      unfold searchFlightsValidate
      rw [hvo, hvd, hdep, hva, hvt]
      simp only [Bind.bind, Except.bind]
      rw [hret]
      dsimp only
      rw [if_neg hre, hrv]
      dsimp only
      rw [if_neg (by simp [hle])]
      simp only [pure, Except.pure]
      rw [if_pos heq]
    exact ⟨key, fun search useRealAPI => by
      unfold searchFlightsTool; rw [key]⟩

/-- Counterexample for C4 as stated: when both cross-field rules are
violated (origin equals destination after normalization, and the return
date equals the departure date), the call fails with the error naming
return_date, not destination as the claim asserts. -/
theorem C4_counterexample :
    jsToUpper "lax" = "LAX" ∧
    searchFlightsValidate
      ⟨some "LAX", some "lax", some "2026-03-15", some "2026-03-15", none, none⟩
      ⟨2026, 1, 1⟩ =
      .error ⟨"Return date must be after departure date", "return_date",
              some "2026-03-15"⟩ ∧
    "return_date" ≠ "destination" :=
  ⟨by decide, by decide, by decide⟩

/-- Witness for C4 at concrete inputs: identical origin and destination
(with no return date) fail naming destination, for every flight source. -/
theorem C4_witness :
    searchFlightsValidate ⟨some "LAX", some "lax", some "2026-03-15", none, none, none⟩
      ⟨2026, 1, 1⟩ =
      .error ⟨"Origin and destination airports must be different", "destination",
              some "lax"⟩ ∧
    searchFlightsTool (fun _ => []) false
      ⟨some "LAX", some "lax", some "2026-03-15", none, none, none⟩ ⟨2026, 1, 1⟩ =
      .error (.validation
        ⟨"Origin and destination airports must be different", "destination", some "lax"⟩) := by
  have h := (C4_cross_field_validation
    ⟨some "LAX", some "lax", some "2026-03-15", none, none, none⟩ ⟨2026, 1, 1⟩
    "LAX" "LAX" "2026-03-15" 1 "economy"
    (by decide) (by decide) (by decide) (by decide) (by decide)).2.1 rfl rfl
  exact ⟨h.1, h.2 (fun _ => []) false⟩

/-- Claim C1, amended: in Fallback mode, a search_flights call that passes
validation (distinct origin/destination included) yields exactly 5 offers,
sorted ascending by total price amount, each with a strictly positive
price amount and a flight number consisting of one of the five generator
airline codes (AA, DL, UA, WN, B6) followed by exactly four digits — the
code B6 contains a digit, so the stricter claimed pattern with two
uppercase letters does not hold for every offer. -/
theorem C1_fallback_search (args : SearchArgs) (today : YMD) (c : Criteria)
    (rands : Fin 5 → FlightRand)
    (hval : searchFlightsValidate args today = .ok c)
    (hr : ∀ i, (rands i).Valid) :
    (generateMockFlights c.origin c.destination c.departure_date c.return_date
        c.adults c.travel_class rands).length = 5 ∧
    List.Pairwise (fun a b : Flight => a.price.amount ≤ b.price.amount)
      (generateMockFlights c.origin c.destination c.departure_date c.return_date
        c.adults c.travel_class rands) ∧
    (∀ f ∈ generateMockFlights c.origin c.destination c.departure_date c.return_date
        c.adults c.travel_class rands,
      0 < f.price.amount ∧ mockFlightNumberOK f.flight_number = true) ∧
    searchFlightsTool
      (fun cr => generateMockFlights cr.origin cr.destination cr.departure_date
        cr.return_date cr.adults cr.travel_class rands) false args today =
      .ok (mkTextResponse (formatFlightSearchResults
        (generateMockFlights c.origin c.destination c.departure_date c.return_date
          c.adults c.travel_class rands)
        c.origin c.destination c.departure_date c.return_date false)) := by
  have hlen := generateMockFlights_length c.origin c.destination c.departure_date
    c.return_date c.adults c.travel_class rands
  have ha : 1 ≤ c.adults :=
    validatePassengerCount_ge_one (searchFlightsValidate_ok hval).2.2.2.1
  refine ⟨hlen, generateMockFlights_sorted _ _ _ _ _ _ _, ?_, ?_⟩
  · intro f hf
    obtain ⟨i, rfl⟩ := generateMockFlights_mem hf
    exact ⟨mkMockFlight_price_pos _ _ _ _ _ ha (hr i),
      mkMockFlight_flight_number _ _ _ _ _ _ (hr i)⟩
  · unfold searchFlightsTool
    rw [hval]
    have hne : generateMockFlights c.origin c.destination c.departure_date
        c.return_date c.adults c.travel_class rands ≠ [] := by
      intro h; rw [h] at hlen; simp at hlen
    dsimp only
    rw [if_neg (by simpa [List.isEmpty_iff] using hne)]

/-- The draw picking the last airline of the fixed set (B6) and the
smallest flight-number suffix. -/
def cexRand : FlightRand := ⟨N53 - 1, 0, 0, 0, 0, 0, 0, 0, 0, 0⟩

/-- Counterexample for C1 as stated: a fully valid search in Fallback mode
whose draws select airline B6 produces the flight number B61000, which
does not match the claimed pattern of two uppercase letters followed by
four digits. -/
theorem C1_counterexample :
    searchFlightsValidate ⟨some "LAX", some "JFK", some "2026-03-15", none, none, none⟩
      ⟨2026, 1, 1⟩ = .ok ⟨"LAX", "JFK", "2026-03-15", none, 1, "economy"⟩ ∧
    (generateMockFlights "LAX" "JFK" "2026-03-15" none 1 "economy"
      (fun _ => cexRand)).all (fun f => claimFlightNumberPattern f.flight_number) = false := by
  refine ⟨by decide, ?_⟩
  have hmem : mkMockFlight "LAX" "JFK" "2026-03-15" "economy" 1 cexRand ∈
      generateMockFlights "LAX" "JFK" "2026-03-15" none 1 "economy" (fun _ => cexRand) := by
    unfold generateMockFlights
    rw [List.mem_mergeSort]
    exact List.mem_map.mpr ⟨0, List.mem_finRange 0, rfl⟩
  rw [Bool.eq_false_iff]
  intro hall
  have hbad := List.all_eq_true.mp hall _ hmem
  rw [show claimFlightNumberPattern
      (mkMockFlight "LAX" "JFK" "2026-03-15" "economy" 1 cexRand).flight_number = false
    from by decide] at hbad
  cases hbad

lemma zeroRand_valid : FlightRand.Valid ⟨0, 0, 0, 0, 0, 0, 0, 0, 0, 0⟩ := by
  unfold FlightRand.Valid validK
  norm_num [N53]

/-- Witness for C1 at concrete inputs: a valid call with all draws zero
yields 5 offers. -/
theorem C1_witness :
    (generateMockFlights "LAX" "JFK" "2026-03-15" none 1 "economy"
      (fun _ => ⟨0, 0, 0, 0, 0, 0, 0, 0, 0, 0⟩)).length = 5 :=
  (C1_fallback_search ⟨some "LAX", some "JFK", some "2026-03-15", none, none, none⟩
    ⟨2026, 1, 1⟩ ⟨"LAX", "JFK", "2026-03-15", none, 1, "economy"⟩
    (fun _ => ⟨0, 0, 0, 0, 0, 0, 0, 0, 0, 0⟩) (by decide)
    (fun _ => zeroRand_valid)).1

lemma mockStops_one_iff (k : ℕ) : mockStops k = 1 ↔ 5 * k ≤ 3 * N53 := by
  unfold mockStops
  split <;> rename_i h <;> simp <;> omega

lemma mockStops_card :
    ((Finset.range N53).filter (fun j => mockStops j = 1)).card = 3 * N53 / 5 + 1 := by
  have hlt : 3 * N53 / 5 < N53 := by decide
  have hset : (Finset.range N53).filter (fun j => mockStops j = 1) =
      Finset.range (3 * N53 / 5 + 1) := by
    ext j
    simp only [Finset.mem_filter, Finset.mem_range, mockStops_one_iff]
    constructor
    · rintro ⟨hj, hle⟩
      have : j ≤ 3 * N53 / 5 := by
        rw [Nat.le_div_iff_mul_le (by norm_num)]
        omega
      omega
    · intro hj
      have hj2 : j ≤ 3 * N53 / 5 := by omega
      have := (Nat.le_div_iff_mul_le (by norm_num)).mp hj2
      exact ⟨by omega, by omega⟩
  rw [hset, Finset.card_range]

/-- Claim C9, amended: every synthetic offer has stop count 0 or 1, but
the selection is biased toward ONE STOP, not direct: with the uniform
draw modelled as an input, the offer has one stop exactly when the draw
is at most 0.6, i.e. with probability 0.6 (the count of one-stop draws
over the whole draw space is 3·2^53/5 + 1 of 2^53). -/
theorem C9_stop_bias (k : ℕ) (hk : k < N53) :
    (mockStops k = 0 ∨ mockStops k = 1) ∧
    (mockStops k = 1 ↔ 5 * k ≤ 3 * N53) ∧
    ((Finset.range N53).filter (fun j => mockStops j = 1)).card = 3 * N53 / 5 + 1 := by
  refine ⟨?_, mockStops_one_iff k, mockStops_card⟩
  unfold mockStops
  split <;> simp

/-- Counterexample for C9 as stated: the one-stop draws number
5404319552844596 of the 2^53 equiprobable draws — at least 60 percent of
the draw space, not approximately 40 percent. -/
theorem C9_counterexample :
    ((Finset.range N53).filter (fun j => mockStops j = 1)).card = 5404319552844596 ∧
    6 * N53 ≤ 10 * 5404319552844596 := by
  refine ⟨?_, by decide⟩
  rw [mockStops_card]
  decide

/-- Witness for C9 at a concrete draw. -/
theorem C9_witness :
    (mockStops 0 = 0 ∨ mockStops 0 = 1) ∧ (mockStops 0 = 1 ↔ 5 * 0 ≤ 3 * N53) :=
  ⟨(C9_stop_bias 0 (by decide)).1, (C9_stop_bias 0 (by decide)).2.1⟩

/-- Claim C6: for every get_flight_status call with valid flight number
and date, a cancelled outcome never includes a gate line; every
non-cancelled outcome includes a gate line and a scheduled departure
line; a delayed outcome additionally includes an estimated departure line
and the fixed delay-reason text; an arrived or departed outcome
additionally includes an actual-time line. -/
theorem C6_flight_status (args : StatusArgs) (today : YMD) (r : StatusRand)
    (fn d : String)
    (hfn : validateFlightNumber args.flight_number = .ok fn)
    (hd : validateDate args.date "date" today = .ok d) :
    getFlightStatusTool args today r =
      .ok (mkTextResponse (renderStatusText (getFlightStatusLines fn d r))) ∧
    (selectedStatus r = "Cancelled" →
      ∀ g, StatusLine.gate g ∉ getFlightStatusLines fn d r) ∧
    (selectedStatus r ≠ "Cancelled" →
      StatusLine.gate (selectedGate r) ∈ getFlightStatusLines fn d r ∧
      StatusLine.scheduled (generateRandomTime r.schedHK r.schedMK) ∈
        getFlightStatusLines fn d r) ∧
    (selectedStatus r = "Delayed" →
      StatusLine.estimated (generateRandomTime r.estHK r.estMK) ∈
        getFlightStatusLines fn d r ∧
      StatusLine.delayReason ∈ getFlightStatusLines fn d r) ∧
    ((selectedStatus r = "Arrived" ∨ selectedStatus r = "Departed") →
      StatusLine.actualTime (generateRandomTime r.actHK r.actMK) ∈
        getFlightStatusLines fn d r) := by
  refine ⟨by unfold getFlightStatusTool; rw [hfn, hd], ?_, ?_, ?_, ?_⟩
  · intro hc g hmem
    simp [getFlightStatusLines, hc] at hmem
  · intro hnc
    constructor <;> simp [getFlightStatusLines, hnc]
  · intro hD
    have hnc : selectedStatus r ≠ "Cancelled" := by rw [hD]; decide
    constructor <;> simp [getFlightStatusLines, hD]
  · intro hAD
    rcases hAD with h | h <;>
      · have hnc : selectedStatus r ≠ "Cancelled" := by rw [h]; decide
        simp [getFlightStatusLines, h]

/-- Witness for C6 at concrete inputs: with the all-zero draw the status
is On Time and the result includes a gate line and a scheduled line. -/
theorem C6_witness :
    getFlightStatusTool ⟨some "AA123", some "2026-03-15"⟩ ⟨2026, 1, 1⟩
      ⟨0, 0, 0, 0, 0, 0, 0, 0⟩ =
      .ok (mkTextResponse (renderStatusText
        (getFlightStatusLines "AA123" "2026-03-15" ⟨0, 0, 0, 0, 0, 0, 0, 0⟩))) ∧
    StatusLine.gate (selectedGate ⟨0, 0, 0, 0, 0, 0, 0, 0⟩) ∈
      getFlightStatusLines "AA123" "2026-03-15" ⟨0, 0, 0, 0, 0, 0, 0, 0⟩ :=
  ⟨(C6_flight_status ⟨some "AA123", some "2026-03-15"⟩ ⟨2026, 1, 1⟩
      ⟨0, 0, 0, 0, 0, 0, 0, 0⟩ "AA123" "2026-03-15" (by decide) (by decide)).1,
   ((C6_flight_status ⟨some "AA123", some "2026-03-15"⟩ ⟨2026, 1, 1⟩
      ⟨0, 0, 0, 0, 0, 0, 0, 0⟩ "AA123" "2026-03-15" (by decide) (by decide)).2.2.1
      (by decide)).1⟩

/-- Claim C2: the Provider Client failure mapping follows exactly the
claimed precedence order — empty offer list, structured bad-location
error, structured bad-date error, other structured error, network error
code, HTTP 429, generic fallback — and in particular a connection failure
is classified NETWORK_ERROR even when the response also carries HTTP
status 429, because the network check precedes the rate-limit check. -/
theorem C2_failure_precedence :
    (∀ outcome, amadeusSearchFlights outcome = specFailureMapping outcome) ∧
    (∀ msg status,
      handleAmadeusSearchError ⟨some ⟨none, status⟩, some "ENOTFOUND", msg⟩ =
        ⟨"Unable to connect to flight data service", "NETWORK_ERROR",
         [("originalError", msg)]⟩) ∧
    (∀ msg,
      handleAmadeusSearchError ⟨some ⟨some ⟨[]⟩, some 429⟩, some "ECONNREFUSED", msg⟩ =
        ⟨"Unable to connect to flight data service", "NETWORK_ERROR",
         [("originalError", msg)]⟩) := by
  refine ⟨?_, ?_, ?_⟩
  · intro outcome
    rcases outcome with data | e
    · rcases data with - | l
      · rfl
      · cases l <;> rfl
    · rcases e with ⟨resp, code, msg⟩
      rcases resp with - | ⟨dataOpt, status⟩
      · simp only [amadeusSearchFlights, specFailureMapping, handleAmadeusSearchError]
        by_cases hA : code = some "ENOTFOUND" <;> by_cases hB : code = some "ECONNREFUSED" <;>
          simp [hA, hB]
      · rcases dataOpt with - | ⟨errs⟩
        · simp only [amadeusSearchFlights, specFailureMapping, handleAmadeusSearchError]
          by_cases hA : code = some "ENOTFOUND" <;>
            by_cases hB : code = some "ECONNREFUSED" <;>
              by_cases h429 : status = some 429 <;>
                simp [hA, hB, h429]
        · obtain ⟨errsList⟩ := errs
          cases errsList with
          | nil =>
            simp only [amadeusSearchFlights, specFailureMapping, handleAmadeusSearchError]
            by_cases hA : code = some "ENOTFOUND" <;>
              by_cases hB : code = some "ECONNREFUSED" <;>
                by_cases h429 : status = some 429 <;>
                  simp [hA, hB, h429]
          | cons first rest =>
            simp only [amadeusSearchFlights, specFailureMapping, handleAmadeusSearchError]
            by_cases h1 : first.code = 38189 <;> by_cases h2 : first.code = 4926 <;>
              simp [h1, h2]
  · intro msg status
    simp [handleAmadeusSearchError]
  · intro msg
    simp [handleAmadeusSearchError]

/-- Claim C7: every error reaching the dispatcher boundary is caught and
returned as a single formatted text payload — a ValidationError renders
its message, field and value; a FlightAPIError renders its message, code
and (when nonempty) its details; any other error renders the generic
message.  No error escapes unformatted: the boundary always produces a
one-block text response. -/
theorem C7_dispatcher_boundary (req : ToolRequest) (today : YMD)
    (sr : Fin 5 → FlightRand) (st : StatusRand) :
    (∀ e, dispatchTool req today sr st = .error e →
      handleToolRequest req today sr st = formatError e) ∧
    (∀ v, formatError (.validation v) = mkTextResponse
      ("Validation Error: " ++ v.message ++ "\\n\\nField: " ++ v.field ++
       "\\nValue: " ++ renderErrValue v.value)) ∧
    (∀ a, formatError (.api a) = mkTextResponse
      ("Flight API Error: " ++ a.message ++ "\\n\\nError Code: " ++ a.code ++
       (if a.details.length ≠ 0 then "\\n\\nDetails:\\n" ++ jsonStringifyPretty a.details
        else ""))) ∧
    (∀ m, formatError (.other m) = mkTextResponse
      ("An unexpected error occurred: " ++ m ++
       "\\n\\nPlease try again later or contact support if the issue persists.")) ∧
    (∀ e, (formatError e).content.length = 1 ∧
      ((formatError e).content.headD ⟨"", ""⟩).type = "text") := by
  refine ⟨?_, fun v => rfl, fun a => rfl, fun m => rfl, ?_⟩
  · intro e he
    unfold handleToolRequest callToolBoundary
    rw [he]
  · intro e
    cases e <;> exact ⟨rfl, rfl⟩

/-- Witness for C7 at a concrete input: an unknown tool name is caught at
the boundary and rendered as the formatted unknown-tool error payload. -/
theorem C7_witness :
    handleToolRequest (.unknownTool "frobnicate") ⟨2026, 1, 1⟩
      (fun _ => ⟨0, 0, 0, 0, 0, 0, 0, 0, 0, 0⟩) ⟨0, 0, 0, 0, 0, 0, 0, 0⟩ =
      formatError (.api ⟨"Unknown tool: frobnicate", "GENERAL_ERROR", []⟩) :=
  (C7_dispatcher_boundary (.unknownTool "frobnicate") ⟨2026, 1, 1⟩
    (fun _ => ⟨0, 0, 0, 0, 0, 0, 0, 0, 0, 0⟩) ⟨0, 0, 0, 0, 0, 0, 0, 0⟩).1
    (.api ⟨"Unknown tool: frobnicate", "GENERAL_ERROR", []⟩) rfl

/-- All string fields of a flight offer are free of newline bytes. -/
def Flight.NoNL (f : Flight) : Prop :=
  noNL f.airline ∧ noNL f.flight_number ∧ noNL f.origin ∧ noNL f.destination ∧
  noNL f.departure_date ∧ noNL f.departure_time ∧ noNL f.arrival_time ∧
  noNL f.duration ∧ noNL f.price.currency ∧ noNL f.travel_class ∧ noNL f.aircraft ∧
  (∀ bc, f.booking_class = some bc → noNL bc)

lemma noNL_formatFlightBlock (i : ℕ) (f : Flight) (hf : f.NoNL) :
    noNL (formatFlightBlock i f) := by
  obtain ⟨h1, h2, h3, h4, h5, h6, h7, h8, h9, h10, h11, h12⟩ := hf
  unfold formatFlightBlock
  repeat' apply noNL_append
  all_goals first
    | decide
    | assumption
    | exact noNL_natToString _
    | skip
  · split
    · decide
    · assumption
  · split
    · decide
    · exact noNL_append (noNL_natToString _) (by decide)
  · cases hbc : f.booking_class with
    | none => decide
    | some bc =>
      exact noNL_append (noNL_append (by decide) (h12 bc hbc)) (by decide)
  · cases f.segments with
    | none => decide
    | some n =>
      dsimp only
      split
      · exact noNL_append (noNL_append (by decide) (noNL_natToString _)) (by decide)
      · decide

lemma noNL_formatFlightSearchResults (flights : List Flight) (o d dep : String)
    (ret : Option String) (ui : Bool)
    (ho : noNL o) (hd : noNL d) (hdep : noNL dep)
    (hret : ∀ r, ret = some r → noNL r)
    (hf : ∀ f ∈ flights, f.NoNL) :
    noNL (formatFlightSearchResults flights o d dep ret ui) := by
  unfold formatFlightSearchResults
  repeat' apply noNL_append
  all_goals first
    | decide
    | assumption
    | skip
  · cases hr : ret with
    | none => decide
    | some r => exact noNL_append (noNL_append (by decide) (hret r hr)) (by decide)
  · split <;> decide
  · apply noNL_concatAll
    intro s hs
    rcases List.mem_map.mp hs with ⟨p, hp, rfl⟩
    exact noNL_formatFlightBlock p.1 p.2 (hf p.2 (List.snd_mem_of_mem_enum hp))
  · split <;> decide

lemma mockAirlines_getD_noNL (idx : ℕ) :
    noNL (mockAirlines.getD idx ("", "")).1 ∧ noNL (mockAirlines.getD idx ("", "")).2 := by
  rcases idx with - | - | - | - | - | n <;>
    first
      | exact ⟨by decide, by decide⟩
      | exact ⟨by simp [mockAirlines, List.getD]; decide,
               by simp [mockAirlines, List.getD]; decide⟩

lemma mkMockFlight_NoNL (o d dep tc : String) (adults : ℕ) (r : FlightRand)
    (ho : noNL o) (hd : noNL d) (hdep : noNL dep) (htc : noNL tc) :
    (mkMockFlight o d dep tc adults r).NoNL := by
  refine ⟨(mockAirlines_getD_noNL _).2,
    noNL_append (mockAirlines_getD_noNL _).1 (noNL_natToString _),
    ho, hd, hdep, noNL_generateRandomTime _ _, noNL_generateRandomTime _ _,
    ?_, show noNL "USD" by decide, htc, show noNL "Boeing 737-800" by decide, ?_⟩
  · exact noNL_append (noNL_append (noNL_append (noNL_natToString _) (by decide))
      (noNL_natToString _)) (by decide)
  · intro bc hbc
    simp only [mkMockFlight] at hbc
    cases hbc
    decide

lemma statuses_getD_noNL (idx : ℕ) : noNL (statuses.getD idx "") := by
  rcases idx with - | - | - | - | - | - | n <;>
    first
      | decide
      | (simp [statuses, List.getD]; decide)

lemma gates_getD_noNL (idx : ℕ) : noNL (gates.getD idx "") := by
  rcases idx with - | - | - | - | - | n <;>
    first
      | decide
      | (simp [gates, List.getD]; decide)

lemma noNL_statusLines {fn d : String} (r : StatusRand) (hfn : noNL fn) (hd : noNL d) :
    ∀ l ∈ getFlightStatusLines fn d r, noNL (renderStatusLine l) := by
  have hst : noNL (selectedStatus r) := statuses_getD_noNL _
  have hg : noNL (selectedGate r) := gates_getD_noNL _
  intro l hl
  unfold getFlightStatusLines at hl
  dsimp only at hl
  repeat' split at hl
  all_goals simp only [List.mem_append, List.mem_cons, List.mem_singleton,
    List.not_mem_nil, or_false, false_or, or_assoc] at hl
  all_goals repeat' (first
    | (rcases hl with rfl | hl)
    | (rcases hl with rfl))
  all_goals first
    | decide
    | exact noNL_append (by decide) hfn
    | exact noNL_append (by decide) hd
    | exact noNL_append (by decide) hst
    | exact noNL_append (by decide) hg
    | exact noNL_append (by decide) (noNL_generateRandomTime _ _)

lemma noNL_renderStatusText (fn d : String) (r : StatusRand)
    (hfn : noNL fn) (hd : noNL d) :
    noNL (renderStatusText (getFlightStatusLines fn d r)) := by
  unfold renderStatusText
  apply noNL_concatAll
  intro s hs
  rcases List.mem_map.mp hs with ⟨l, hl, rfl⟩
  exact noNL_append (noNL_statusLines r hfn hd l hl) (by decide)

lemma payloadText_mk (t : String) : payloadText (mkTextResponse t) = t := rfl

lemma mockAirports_lookup_noNL {code : String} {a : AirportRecord}
    (h : mockAirports.lookup code = some a) : noNL (formatAirportText a false) := by
  simp only [mockAirports, List.lookup] at h
  repeat' split at h
  all_goals first
    | (injection h with h2
       subst h2
       decide)
    | (injection h)

lemma mockAirlinesTable_lookup_noNL {code : String} {a : AirlineRecord}
    (h : mockAirlinesTable.lookup code = some a) :
    noNL (formatAirlineText code a) := by
  simp only [mockAirlinesTable, List.lookup] at h
  repeat' split at h
  all_goals first
    | (rename_i hbeq
       have hc := beq_iff_eq.mp hbeq
       subst hc
       injection h with h2
       subst h2
       decide)
    | (injection h)

lemma noNL_airportPayload {args : AirportArgs} {resp : ToolResponse}
    (h : getAirportInfoTool args = .ok resp) : noNL (payloadText resp) := by
  unfold getAirportInfoTool at h
  cases hv : validateAirportCode args.airport_code with
  | error e => rw [hv] at h; simp at h
  | ok code =>
    rw [hv] at h
    dsimp only at h
    cases hl : mockAirports.lookup code with
    | none => rw [hl] at h; simp at h
    | some a =>
      rw [hl] at h
      injection h with h2
      subst h2
      rw [payloadText_mk]
      exact mockAirports_lookup_noNL hl

lemma noNL_airlinePayload {args : AirlineArgs} {resp : ToolResponse}
    (h : getAirlineInfoTool args = .ok resp) : noNL (payloadText resp) := by
  unfold getAirlineInfoTool at h
  cases hargs : args.airline_code with
  | none => rw [hargs] at h; simp at h
  | some c =>
    rw [hargs] at h
    dsimp only at h
    by_cases hce : c = ""
    · rw [if_pos hce] at h; simp at h
    · rw [if_neg hce] at h
      by_cases hshape : airlineCodeShape c = true
      · rw [if_neg (by simp [hshape])] at h
        try dsimp only at h
        cases hl : mockAirlinesTable.lookup (jsToUpper c) with
        | none => rw [hl] at h; simp at h
        | some a =>
          rw [hl] at h
          injection h with h2
          subst h2
          rw [payloadText_mk]
          exact mockAirlinesTable_lookup_noNL hl
      · rw [if_pos (by simpa using hshape)] at h
        simp at h

lemma noNL_validationPayload (v : ValidationError)
    (hm : noNL v.message) (hf : noNL v.field) (hv : noNL (renderErrValue v.value)) :
    noNL (payloadText (formatError (.validation v))) := by
  simp only [formatError, payloadText_mk]
  repeat' apply noNL_append
  all_goals first | decide | assumption

lemma noNL_otherPayload (m : String) (hm : noNL m) :
    noNL (payloadText (formatError (.other m))) := by
  simp only [formatError, payloadText_mk]
  repeat' apply noNL_append
  all_goals first | decide | assumption

lemma noNL_apiPayload_empty (a : FlightAPIErr) (hm : noNL a.message) (hc : noNL a.code)
    (hd : a.details = []) : noNL (payloadText (formatError (.api a))) := by
  simp only [formatError, payloadText_mk]
  rw [hd]
  rw [if_neg (by decide)]
  repeat' apply noNL_append
  all_goals first | decide | assumption

lemma apiPayload_hasNL (a : FlightAPIErr) (hd : a.details ≠ []) :
    ¬ noNL (payloadText (formatError (.api a))) := by
  have hlen : a.details.length ≠ 0 := by
    intro h0; exact hd (List.length_eq_zero.mp h0)
  have hjson : '\n' ∈ (jsonStringifyPretty a.details).data := by
    rcases ha2 : a.details with - | ⟨kv, rest⟩
    · exact absurd ha2 hd
    · simp only [jsonStringifyPretty]
      rw [String.data_append, String.data_append]
      exact List.mem_append_left _
        (List.mem_append_left _ (show '\n' ∈ ("\x7b\n").data by decide))
  intro hno
  refine hno '\n' ?_ rfl
  simp only [formatError, payloadText_mk]
  rw [if_pos hlen]
  simp only [String.data_append, List.mem_append]
  simp [hjson]

lemma generateMockFlights_NoNL (o d dep tc : String) (ret : Option String)
    (adults : ℕ) (rands : Fin 5 → FlightRand)
    (ho : noNL o) (hd : noNL d) (hdep : noNL dep) (htc : noNL tc) :
    ∀ f ∈ generateMockFlights o d dep ret adults tc rands, f.NoNL := by
  intro f hf
  obtain ⟨i, rfl⟩ := generateMockFlights_mem hf
  exact mkMockFlight_NoNL _ _ _ _ _ _ ho hd hdep htc

/-- Claim C8, amended: every text block the system builds from
newline-free field values — search results, flight status, airport and
airline payloads, validation-error, generic-error and detail-free
domain-error payloads — encodes line breaks as the literal two-character
backslash-n sequence and contains no actual newline byte; the exception is
a domain-error payload with nonempty details, whose pretty-printed
Details section (JSON.stringify with indent 2) always contains actual
newline bytes. -/
theorem C8_escaped_newlines :
    (∀ v : ValidationError, noNL v.message → noNL v.field →
      noNL (renderErrValue v.value) →
      noNL (payloadText (formatError (.validation v)))) ∧
    (∀ m : String, noNL m → noNL (payloadText (formatError (.other m)))) ∧
    (∀ a : FlightAPIErr, noNL a.message → noNL a.code → a.details = [] →
      noNL (payloadText (formatError (.api a)))) ∧
    (∀ a : FlightAPIErr, a.details ≠ [] →
      ¬ noNL (payloadText (formatError (.api a)))) ∧
    (∀ flights o d dep ret ui, noNL o → noNL d → noNL dep →
      (∀ r, ret = some r → noNL r) → (∀ f ∈ flights, f.NoNL) →
      noNL (formatFlightSearchResults flights o d dep ret ui)) ∧
    (∀ o d dep tc ret adults rands, noNL o → noNL d → noNL dep → noNL tc →
      ∀ f ∈ generateMockFlights o d dep ret adults tc rands, f.NoNL) ∧
    (∀ fn d r, noNL fn → noNL d →
      noNL (renderStatusText (getFlightStatusLines fn d r))) ∧
    (∀ args resp, getAirportInfoTool args = .ok resp → noNL (payloadText resp)) ∧
    (∀ args resp, getAirlineInfoTool args = .ok resp → noNL (payloadText resp)) := by
  refine ⟨noNL_validationPayload, noNL_otherPayload, noNL_apiPayload_empty,
    apiPayload_hasNL, ?_, ?_, ?_, ?_, ?_⟩
  · intro flights o d dep ret ui ho hd hdep hret hf
    exact noNL_formatFlightSearchResults flights o d dep ret ui ho hd hdep hret hf
  · intro o d dep tc ret adults rands ho hd hdep htc
    exact generateMockFlights_NoNL o d dep tc ret adults rands ho hd hdep htc
  · intro fn d r hfn hd
    exact noNL_renderStatusText fn d r hfn hd
  · intro args resp h
    exact noNL_airportPayload h
  · intro args resp h
    exact noNL_airlinePayload h

/-- Counterexample for C8 as stated: the FLIGHT_NOT_FOUND error the search
operation raises when the flight source returns no offers carries a
nonempty details object, and its formatted payload contains actual newline
bytes from the pretty-printed Details section. -/
theorem C8_counterexample :
    searchFlightsTool (fun _ => []) false
      ⟨some "LAX", some "JFK", some "2026-03-15", none, none, none⟩ ⟨2026, 1, 1⟩ =
      .error (.api ⟨"No flights found for the specified criteria", "FLIGHT_NOT_FOUND",
        [("origin", "LAX"), ("destination", "JFK"), ("date", "2026-03-15")]⟩) ∧
    '\n' ∈ (payloadText (formatError (.api
      ⟨"No flights found for the specified criteria", "FLIGHT_NOT_FOUND",
       [("origin", "LAX"), ("destination", "JFK"), ("date", "2026-03-15")]⟩))).data :=
  ⟨by decide, by decide⟩

/-- Witness for C8 at concrete inputs: a validation-error payload has no
newline byte, and a domain-error payload with nonempty details does. -/
theorem C8_witness :
    noNL (payloadText (formatError (.validation
      ⟨"Airport code is required", "airport_code", none⟩))) ∧
    ¬ noNL (payloadText (formatError (.api
      ⟨"Failed to search flights", "API_UNAVAILABLE", [("originalError", "boom")]⟩))) :=
  ⟨C8_escaped_newlines.1 ⟨"Airport code is required", "airport_code", none⟩
      (by decide) (by decide) (by decide),
   C8_escaped_newlines.2.2.2.1
      ⟨"Failed to search flights", "API_UNAVAILABLE", [("originalError", "boom")]⟩
      (by decide)⟩
